import Mathlib

set_option maxRecDepth 100000

/-!
Verification of the NES emulator core (rust-nes) against its
natural-language specification.

The Rust sources are shallowly embedded: machine integers (u8/u16) become
`Nat` with explicit `% 2 ^ w` or `&&& mask` wherever the Rust code wraps or
truncates; byte arrays become total functions `Nat → Nat` updated with
`updFn`; code paths that panic in Rust (`unreachable!()`, out-of-bounds
indexing) return `none`.  Every definition mirrors one item of the source
(`src/cpu/cpu.rs`, `src/cpu/instructions.rs`, `src/ppu.rs`,
`src/cartridge/mmc1.rs`) and keeps its name.
-/

/-- Pointwise update of a `Nat → Nat` array model (Rust `arr[i] = v`). -/
def updFn (f : Nat → Nat) (i v : Nat) : Nat → Nat :=
  fun j => if j = i then v else f j

@[simp] theorem updFn_same (f : Nat → Nat) (i v : Nat) : updFn f i v i = v := by
  simp [updFn]

theorem updFn_other (f : Nat → Nat) (i v j : Nat) (h : j ≠ i) :
    updFn f i v j = f j := by
  simp [updFn, h]

/-- The CPU status register (`Status` in `src/cpu/cpu.rs`): the six real
processor flags, one `Bool` per flag. -/
structure Status where
  carry : Bool
  zero : Bool
  interrupt : Bool
  decimal : Bool
  overflow : Bool
  negative : Bool
deriving DecidableEq, Fintype

/-- `Status::value` (`src/cpu/cpu.rs:39`): pack the six flags plus the
caller-chosen break flag into the process-visible `NV1BDIZC` byte; bit 5 is
forced to 1. -/
def Status.value (p : Status) (break_flag : Bool) : Nat :=
  0b00100000 |||
    (if break_flag  then 0b00010000 else 0) |||
    (if p.carry     then 0b00000001 else 0) |||
    (if p.zero      then 0b00000010 else 0) |||
    (if p.interrupt then 0b00000100 else 0) |||
    (if p.decimal   then 0b00001000 else 0) |||
    (if p.overflow  then 0b01000000 else 0) |||
    (if p.negative  then 0b10000000 else 0)

/-- `Status::set_value` (`src/cpu/cpu.rs:50`): unpack a byte into the six
real flags; bits 4 and 5 of the byte are not consulted. -/
def Status.set_value (value : Nat) : Status :=
  { carry     := value &&& 0b00000001 ≠ 0
    zero      := value &&& 0b00000010 ≠ 0
    interrupt := value &&& 0b00000100 ≠ 0
    decimal   := value &&& 0b00001000 ≠ 0
    overflow  := value &&& 0b01000000 ≠ 0
    negative  := value &&& 0b10000000 ≠ 0 }

/-- The MMC1 mapper state (`Mmc1` in `src/cartridge/mmc1.rs`).  The byte
arrays (`prg_rom` 256 KiB, `chr_rom` 128 KiB, `ram` 8 KiB, `ppu_ram` 2 KiB)
are modelled as total functions. -/
structure Mmc1 where
  prg_rom : Nat → Nat
  chr_rom : Nat → Nat
  ram : Nat → Nat
  control : Nat
  chr_bank0 : Nat
  chr_bank1 : Nat
  prg_bank : Nat
  shifter : Nat
  ppu_ram : Nat → Nat

/-- `Mmc1::new` (`src/cartridge/mmc1.rs:24`). -/
def Mmc1.new (prg_rom chr_rom : Nat → Nat) : Mmc1 :=
  { prg_rom := prg_rom
    chr_rom := chr_rom
    ram := fun _ => 0
    control := 0x0C
    chr_bank0 := 0
    chr_bank1 := 0
    prg_bank := 0
    shifter := 0b00100000
    ppu_ram := fun _ => 0 }

/-- `Mmc1::read_cpu` (`src/cartridge/mmc1.rs:43`).  The Rust match on
`(control >> 2) & 0b11` has arms `0 | 1`, `2`, `3` and an unreachable
default; since the scrutinee is `< 4`, the final arm here is exactly `3`. -/
def Mmc1.read_cpu (m : Mmc1) (addr : Nat) : Nat :=
  if addr < 0x6000 then
    0
  else if addr < 0x8000 then
    if m.prg_bank &&& 0b10000 = 0 then m.ram (addr - 0x6000) else 0
  else
    match (m.control >>> 2) &&& 0b11 with
    | 0 | 1 =>
      let bank := (m.prg_bank >>> 1) &&& 0b111
      m.prg_rom (0x8000 * bank + addr - 0x8000)
    | 2 =>
      if addr < 0xC000 then
        m.prg_rom (addr - 0x8000)
      else
        let bank := m.prg_bank &&& 0b1111
        m.prg_rom (0x4000 * bank + addr - 0xC000)
    | _ =>
      if addr < 0xC000 then
        let bank := m.prg_bank &&& 0b1111
        m.prg_rom (0x4000 * bank + addr - 0x8000)
      else
        m.prg_rom (0x4000 * 15 + addr - 0xC000)

/-- `Mmc1::write_cpu` (`src/cartridge/mmc1.rs:84`): PRG-RAM writes gated by
bit 4 of the PRG-bank register, and the serial load protocol for
`$8000-$FFFF`. -/
def Mmc1.write_cpu (m : Mmc1) (addr value : Nat) : Mmc1 :=
  if addr < 0x6000 then
    m
  else if addr < 0x8000 then
    if m.prg_bank &&& 0b10000 = 0 then
      { m with ram := updFn m.ram (addr - 0x6000) value }
    else
      m
  else if value &&& 0b10000000 ≠ 0 then
    { m with control := m.control ||| 0x0C, shifter := 0b00100000 }
  else
    let s := (m.shifter >>> 1) ||| ((value &&& 1) <<< 7)
    if s &&& 1 = 1 then
      let result := s >>> 3
      if addr < 0xA000 then
        { m with shifter := 0b00100000, control := result }
      else if addr < 0xC000 then
        { m with shifter := 0b00100000, chr_bank0 := result }
      else if addr < 0xE000 then
        { m with shifter := 0b00100000, chr_bank1 := result }
      else
        { m with shifter := 0b00100000, prg_bank := result }
    else
      { m with shifter := s }

/-- `Mmc1::read_ppu` (`src/cartridge/mmc1.rs:122`): CHR banking for
`$0000-$1FFF`, mirrored nametable RAM above. -/
def Mmc1.read_ppu (m : Mmc1) (addr : Nat) : Nat :=
  if addr ≤ 0x1FFF then
    if m.control &&& 0b10000 = 0 then
      m.chr_rom ((m.chr_bank0 >>> 1) * 8 * 1024 + addr)
    else if addr ≤ 0x0FFF then
      m.chr_rom (m.chr_bank0 * 4 * 1024 + addr)
    else
      m.chr_rom (m.chr_bank1 * 4 * 1024 + addr - 0x1000)
  else if addr ≤ 0x2FFF then
    m.ppu_ram ((addr - 0x1000) &&& 0x7FF)
  else
    m.ppu_ram ((addr - 0x2000) &&& 0x7FF)

/-- `Mmc1::write_ppu` (`src/cartridge/mmc1.rs:144`). -/
def Mmc1.write_ppu (m : Mmc1) (addr value : Nat) : Mmc1 :=
  if addr ≤ 0x1FFF then
    m
  else if addr ≤ 0x2FFF then
    { m with ppu_ram := updFn m.ppu_ram ((addr - 0x1000) &&& 0x7FF) value }
  else
    { m with ppu_ram := updFn m.ppu_ram ((addr - 0x2000) &&& 0x7FF) value }

/-- An all-zero ROM image, used for concrete mapper instances. -/
def zeroBytes : Nat → Nat := fun _ => 0

/-- C4: status-byte packing round-trip.  Unpacking the packed byte restores
exactly the six real flags for every flag assignment and both break-bit
inputs; the packed byte always has bit 5 set and its bit 4 equals the
break-flag input; and `set_value` discards bits 4 and 5 of its input byte. -/
theorem status_pack_roundtrip :
    (∀ (s : Status) (b : Bool),
        Status.set_value (s.value b) = s ∧
        (s.value b) &&& 0x20 = 0x20 ∧
        (s.value b).testBit 4 = b) ∧
    (∀ v : Fin 256, Status.set_value ((v : Nat) &&& 0xCF) = Status.set_value v) := by
  constructor
  · decide
  · decide




theorem lor_shiftLeft_eq_add (b a i : Nat) (hb : b < 2 ^ i) :
    b ||| (a <<< i) = 2 ^ i * a + b := by
  apply Nat.eq_of_testBit_eq
  intro j
  rw [Nat.testBit_or, Nat.testBit_shiftLeft, Nat.testBit_mul_pow_two_add a hb j]
  by_cases hj : j < i
  · have h2 : ¬ (i ≤ j) := by omega
    simp [hj, h2]
  · have hij : i ≤ j := by omega
    have hbj : b.testBit j = false :=
      Nat.testBit_lt_two_pow (lt_of_lt_of_le hb (Nat.pow_le_pow_right (by norm_num) hij))
    simp [hj, hij, hbj]

theorem or_shiftLeft_mod_two (x y i : Nat) (hi : 0 < i) :
    (x ||| y <<< i) % 2 = x % 2 := by
  have hge : ¬ (0 ≥ i) := by omega
  have h1 : (x ||| y <<< i).testBit 0 = x.testBit 0 := by
    rw [Nat.testBit_or, Nat.testBit_shiftLeft]
    simp [hge]
  simp only [Nat.testBit_zero, decide_eq_decide] at h1
  omega

theorem write_cpu_serial (m : Mmc1) (a v s : Nat) (ha : 0x8000 ≤ a)
    (hv : v &&& 0x80 = 0)
    (hs : m.shifter / 2 ||| ((v % 2) <<< 7) = s) :
    m.write_cpu a v =
      if s % 2 = 1 then
        (if a < 0xA000 then { m with shifter := 0b00100000, control := s / 8 }
         else if a < 0xC000 then { m with shifter := 0b00100000, chr_bank0 := s / 8 }
         else if a < 0xE000 then { m with shifter := 0b00100000, chr_bank1 := s / 8 }
         else { m with shifter := 0b00100000, prg_bank := s / 8 })
      else
        { m with shifter := s } := by
  have k : ¬ (a < 0x6000) := by omega
  have k' : ¬ (a < 0x8000) := by omega
  simp only [Mmc1.write_cpu, k, k', if_false, hv, Nat.and_one_is_mod,
    Nat.shiftRight_eq_div_pow]
  norm_num
  rw [show m.shifter / 2 % 2 = s % 2 from by
        rw [← hs, or_shiftLeft_mod_two _ _ _ (by norm_num)],
      hs]

theorem mmc1_serial_chain (m : Mmc1) (v0 v1 v2 v3 v4 a0 a1 a2 a3 a4 : Nat)
    (hm : m.shifter = 0b00100000)
    (hv0 : v0 &&& 0x80 = 0) (hv1 : v1 &&& 0x80 = 0) (hv2 : v2 &&& 0x80 = 0)
    (hv3 : v3 &&& 0x80 = 0) (hv4 : v4 &&& 0x80 = 0)
    (h0 : 0x8000 ≤ a0) (h1 : 0x8000 ≤ a1) (h2 : 0x8000 ≤ a2) (h3 : 0x8000 ≤ a3)
    (h4 : 0x8000 ≤ a4) :
    ((((m.write_cpu a0 v0).write_cpu a1 v1).write_cpu a2 v2).write_cpu a3 v3).write_cpu
        a4 v4 =
      (let val := v0 % 2 + 2 * (v1 % 2) + 4 * (v2 % 2) + 8 * (v3 % 2) + 16 * (v4 % 2)
       if a4 < 0xA000 then { m with shifter := 0b00100000, control := val }
       else if a4 < 0xC000 then { m with shifter := 0b00100000, chr_bank0 := val }
       else if a4 < 0xE000 then { m with shifter := 0b00100000, chr_bank1 := val }
       else { m with shifter := 0b00100000, prg_bank := val }) := by
  have hb0 : v0 % 2 < 2 := Nat.mod_lt _ (by norm_num)
  have hb1 : v1 % 2 < 2 := Nat.mod_lt _ (by norm_num)
  have hb2 : v2 % 2 < 2 := Nat.mod_lt _ (by norm_num)
  have hb3 : v3 % 2 < 2 := Nat.mod_lt _ (by norm_num)
  have hb4 : v4 % 2 < 2 := Nat.mod_lt _ (by norm_num)
  have e1 : m.write_cpu a0 v0 = { m with shifter := 128 * (v0 % 2) + 16 } := by
    rw [write_cpu_serial m a0 v0 (128 * (v0 % 2) + 16) h0 hv0 (by
      rw [hm, show (0b00100000 : Nat) / 2 = 16 by norm_num]
      simpa using lor_shiftLeft_eq_add 16 (v0 % 2) 7 (by norm_num))]
    rw [if_neg (by omega)]
  have e2 : ({ m with shifter := 128 * (v0 % 2) + 16 } : Mmc1).write_cpu a1 v1 =
      { m with shifter := 128 * (v1 % 2) + (64 * (v0 % 2) + 8) } := by
    rw [write_cpu_serial _ a1 v1 (128 * (v1 % 2) + (64 * (v0 % 2) + 8)) h1 hv1 (by
      show (128 * (v0 % 2) + 16) / 2 ||| ((v1 % 2) <<< 7) = _
      rw [show (128 * (v0 % 2) + 16) / 2 = 64 * (v0 % 2) + 8 from by omega]
      simpa using lor_shiftLeft_eq_add (64 * (v0 % 2) + 8) (v1 % 2) 7 (by omega))]
    rw [if_neg (by omega)]
  have e3 : ({ m with shifter := 128 * (v1 % 2) + (64 * (v0 % 2) + 8) } : Mmc1).write_cpu
        a2 v2 =
      { m with shifter := 128 * (v2 % 2) + (64 * (v1 % 2) + 32 * (v0 % 2) + 4) } := by
    rw [write_cpu_serial _ a2 v2
        (128 * (v2 % 2) + (64 * (v1 % 2) + 32 * (v0 % 2) + 4)) h2 hv2 (by
      show (128 * (v1 % 2) + (64 * (v0 % 2) + 8)) / 2 ||| ((v2 % 2) <<< 7) = _
      rw [show (128 * (v1 % 2) + (64 * (v0 % 2) + 8)) / 2 =
            64 * (v1 % 2) + 32 * (v0 % 2) + 4 from by omega]
      simpa using lor_shiftLeft_eq_add (64 * (v1 % 2) + 32 * (v0 % 2) + 4) (v2 % 2) 7
        (by omega))]
    rw [if_neg (by omega)]
  have e4 : ({ m with
        shifter := 128 * (v2 % 2) + (64 * (v1 % 2) + 32 * (v0 % 2) + 4) } : Mmc1).write_cpu
        a3 v3 =
      { m with
        shifter := 128 * (v3 % 2) + (64 * (v2 % 2) + 32 * (v1 % 2) + 16 * (v0 % 2) + 2) } := by
    rw [write_cpu_serial _ a3 v3
        (128 * (v3 % 2) + (64 * (v2 % 2) + 32 * (v1 % 2) + 16 * (v0 % 2) + 2)) h3 hv3 (by
      show (128 * (v2 % 2) + (64 * (v1 % 2) + 32 * (v0 % 2) + 4)) / 2 |||
          ((v3 % 2) <<< 7) = _
      rw [show (128 * (v2 % 2) + (64 * (v1 % 2) + 32 * (v0 % 2) + 4)) / 2 =
            64 * (v2 % 2) + 32 * (v1 % 2) + 16 * (v0 % 2) + 2 from by omega]
      simpa using lor_shiftLeft_eq_add
        (64 * (v2 % 2) + 32 * (v1 % 2) + 16 * (v0 % 2) + 2) (v3 % 2) 7 (by omega))]
    rw [if_neg (by omega)]
  have e5 := write_cpu_serial
      ({ m with
        shifter := 128 * (v3 % 2) + (64 * (v2 % 2) + 32 * (v1 % 2) + 16 * (v0 % 2) + 2) })
      a4 v4
      (128 * (v4 % 2) + (64 * (v3 % 2) + 32 * (v2 % 2) + 16 * (v1 % 2) + 8 * (v0 % 2) + 1))
      h4 hv4 (by
      show (128 * (v3 % 2) + (64 * (v2 % 2) + 32 * (v1 % 2) + 16 * (v0 % 2) + 2)) / 2 |||
          ((v4 % 2) <<< 7) = _
      rw [show (128 * (v3 % 2) + (64 * (v2 % 2) + 32 * (v1 % 2) + 16 * (v0 % 2) + 2)) / 2 =
            64 * (v3 % 2) + 32 * (v2 % 2) + 16 * (v1 % 2) + 8 * (v0 % 2) + 1 from by omega]
      simpa using lor_shiftLeft_eq_add
        (64 * (v3 % 2) + 32 * (v2 % 2) + 16 * (v1 % 2) + 8 * (v0 % 2) + 1) (v4 % 2) 7
        (by omega))
  rw [e1, e2, e3, e4, e5, if_pos (by omega)]
  rw [show (128 * (v4 % 2) +
        (64 * (v3 % 2) + 32 * (v2 % 2) + 16 * (v1 % 2) + 8 * (v0 % 2) + 1)) / 8 =
      v0 % 2 + 2 * (v1 % 2) + 4 * (v2 % 2) + 8 * (v3 % 2) + 16 * (v4 % 2) from by omega]

/-- Statement of the C1 commit behaviour for one five-write burst: the
committed value collects bit 0 of each write (first write = LSB), the
target register is selected by the address of the fifth write, all other
banking registers and memories are untouched, and the shifter is reset. -/
def serialCommitSpec (m m' : Mmc1) (v0 v1 v2 v3 v4 a4 : Nat) : Prop :=
  let val := (v0 &&& 1) + 2 * (v1 &&& 1) + 4 * (v2 &&& 1) + 8 * (v3 &&& 1) + 16 * (v4 &&& 1)
  m'.shifter = 0b00100000 ∧ m'.ram = m.ram ∧ m'.ppu_ram = m.ppu_ram ∧
  m'.prg_rom = m.prg_rom ∧ m'.chr_rom = m.chr_rom ∧
  ((a4 < 0xA000 ∧ m'.control = val ∧ m'.chr_bank0 = m.chr_bank0 ∧
      m'.chr_bank1 = m.chr_bank1 ∧ m'.prg_bank = m.prg_bank) ∨
   (0xA000 ≤ a4 ∧ a4 < 0xC000 ∧ m'.chr_bank0 = val ∧ m'.control = m.control ∧
      m'.chr_bank1 = m.chr_bank1 ∧ m'.prg_bank = m.prg_bank) ∨
   (0xC000 ≤ a4 ∧ a4 < 0xE000 ∧ m'.chr_bank1 = val ∧ m'.control = m.control ∧
      m'.chr_bank0 = m.chr_bank0 ∧ m'.prg_bank = m.prg_bank) ∨
   (0xE000 ≤ a4 ∧ m'.prg_bank = val ∧ m'.control = m.control ∧
      m'.chr_bank0 = m.chr_bank0 ∧ m'.chr_bank1 = m.chr_bank1))

/-- C1 (amended): the serial load protocol, starting from the reset shifter
state `0b00100000`: five consecutive writes to `$8000-$FFFF` with bit 7
clear commit the assembled 5-bit value to exactly one register selected by
the fifth write's address; any write with bit 7 set resets the shifter and
ORs `0x0C` into the control register, committing nothing. -/
theorem mmc1_serial_load_protocol :
    (∀ (m : Mmc1) (v0 v1 v2 v3 v4 a0 a1 a2 a3 a4 : Nat),
      m.shifter = 0b00100000 →
      v0 &&& 0x80 = 0 → v1 &&& 0x80 = 0 → v2 &&& 0x80 = 0 →
      v3 &&& 0x80 = 0 → v4 &&& 0x80 = 0 →
      0x8000 ≤ a0 → 0x8000 ≤ a1 → 0x8000 ≤ a2 → 0x8000 ≤ a3 → 0x8000 ≤ a4 →
      serialCommitSpec m
        (((((m.write_cpu a0 v0).write_cpu a1 v1).write_cpu a2 v2).write_cpu
            a3 v3).write_cpu a4 v4)
        v0 v1 v2 v3 v4 a4) ∧
    (∀ (m : Mmc1) (a v : Nat), 0x8000 ≤ a → v &&& 0x80 ≠ 0 →
      m.write_cpu a v =
        { m with control := m.control ||| 0x0C, shifter := 0b00100000 }) := by
  constructor
  · intro m v0 v1 v2 v3 v4 a0 a1 a2 a3 a4 hm hv0 hv1 hv2 hv3 hv4 h0 h1 h2 h3 h4
    rw [serialCommitSpec,
      mmc1_serial_chain m v0 v1 v2 v3 v4 a0 a1 a2 a3 a4 hm hv0 hv1 hv2 hv3 hv4
        h0 h1 h2 h3 h4]
    by_cases hA : a4 < 0xA000
    · simp [hA]
    · by_cases hB : a4 < 0xC000
      · simp [hA, hB]
        omega
      · by_cases hC : a4 < 0xE000
        · simp [hA, hB, hC]
          omega
        · simp [hA, hB, hC]
          omega
  · intro m a v ha hv
    have k : ¬ (a < 0x6000) := by omega
    have k' : ¬ (a < 0x8000) := by omega
    simp [Mmc1.write_cpu, k, k', hv]

/-- C1 witness: a concrete burst (bits 1,1,0,0,1 ending at `$E001`) sets the
PRG-bank register to 19. -/
theorem mmc1_serial_load_protocol_witness :
    serialCommitSpec (Mmc1.new zeroBytes zeroBytes)
      ((((((Mmc1.new zeroBytes zeroBytes).write_cpu 0x8000 1).write_cpu 0x8123 1).write_cpu
          0x9000 0).write_cpu 0xA000 0).write_cpu 0xE001 1)
      1 1 0 0 1 0xE001 :=
  mmc1_serial_load_protocol.1 (Mmc1.new zeroBytes zeroBytes) 1 1 0 0 1
    0x8000 0x8123 0x9000 0xA000 0xE001 rfl rfl rfl rfl rfl rfl
    (by norm_num) (by norm_num) (by norm_num) (by norm_num) (by norm_num)

/-- C1 counterexample to the claim as stated: from shifter state `0b00010000`
(reachable after a single serial write), five writes with bit pattern
1,0,0,0,0 and all addresses below `$A000` leave the control register at 2,
whereas the claim's assembled value (bit 0 of each write, LSB first) is 1 --
the commit actually happens at the fourth write, not the fifth. -/
theorem mmc1_serial_anyState_counterexample :
    (((((({ Mmc1.new zeroBytes zeroBytes with
        shifter := 0b00010000 } : Mmc1).write_cpu 0x8000 1).write_cpu 0x8000 0).write_cpu
          0x8000 0).write_cpu 0x8000 0).write_cpu 0x8000 0).control = 2 ∧
    (2 : Nat) ≠ (1 &&& 1) + 2 * (0 &&& 1) + 4 * (0 &&& 1) + 8 * (0 &&& 1) + 16 * (0 &&& 1) := by
  constructor
  · rfl
  · decide

/-- C9: the MMC1 PRG-RAM enable gate.  With bit 4 of the PRG-bank register
set, `$6000-$7FFF` reads return 0 and writes change nothing at all; with
bit 4 clear, reads return the stored RAM cell and writes update exactly the
addressed cell.  Writes outside `$6000-$7FFF` never change the RAM
contents, so a value stored before the gate was disabled is still
observable after re-enabling; the final conjunct replays that scenario
concretely (store `0x7A`, disable via a serial burst ending at `$E000` with
value 1, observe 0 and a dropped write, re-enable, observe `0x7A`
again). -/
theorem mmc1_prg_ram_gate :
    (∀ (m : Mmc1) (a v : Nat), 0x6000 ≤ a → a < 0x8000 →
      (m.prg_bank &&& 0b10000 ≠ 0 → m.read_cpu a = 0 ∧ m.write_cpu a v = m) ∧
      (m.prg_bank &&& 0b10000 = 0 →
        m.read_cpu a = m.ram (a - 0x6000) ∧
        (m.write_cpu a v).read_cpu a = v ∧
        (m.write_cpu a v).ram = updFn m.ram (a - 0x6000) v ∧
        (∀ a', 0x6000 ≤ a' → a' < 0x8000 → a' ≠ a →
          (m.write_cpu a v).read_cpu a' = m.read_cpu a'))) ∧
    (∀ (m : Mmc1) (b w : Nat), (b < 0x6000 ∨ 0x8000 ≤ b) →
      (m.write_cpu b w).ram = m.ram) ∧
    (let m0 := Mmc1.new zeroBytes zeroBytes
     let m1 := m0.write_cpu 0x6001 0x7A
     let m2 := ((((m1.write_cpu 0x8000 0).write_cpu 0x8000 0).write_cpu
         0x8000 0).write_cpu 0x8000 0).write_cpu 0xE000 1
     let m3 := m2.write_cpu 0x6001 0x99
     let m4 := ((((m3.write_cpu 0x8000 0).write_cpu 0x8000 0).write_cpu
         0x8000 0).write_cpu 0x8000 0).write_cpu 0xE000 0
     m1.read_cpu 0x6001 = 0x7A ∧ m2.read_cpu 0x6001 = 0 ∧
     m3 = m2 ∧ m4.read_cpu 0x6001 = 0x7A) := by
  refine ⟨?_, ?_, ?_⟩
  · intro m a v ha ha'
    have k1 : ¬ (a < 0x6000) := by omega
    constructor
    · intro hg
      refine ⟨?_, ?_⟩
      · simp [Mmc1.read_cpu, k1, ha', hg]
      · simp [Mmc1.write_cpu, k1, ha', hg]
    · intro hg
      refine ⟨?_, ?_, ?_, ?_⟩
      · simp [Mmc1.read_cpu, k1, ha', hg]
      · simp [Mmc1.write_cpu, Mmc1.read_cpu, k1, ha', hg]
      · simp [Mmc1.write_cpu, k1, ha', hg]
      · intro a' hb hb' hne
        have k2 : ¬ (a' < 0x6000) := by omega
        simp [Mmc1.write_cpu, Mmc1.read_cpu, k1, k2, ha', hb', hg]
        rw [updFn_other]
        omega
  · intro m b w hb
    rcases hb with hb | hb
    · simp [Mmc1.write_cpu, hb]
    · have k1 : ¬ (b < 0x6000) := by omega
      have k2 : ¬ (b < 0x8000) := by omega
      simp only [Mmc1.write_cpu, k1, k2, if_false]
      by_cases hw : w &&& 0x80 ≠ 0
      · simp [hw]
      · simp only [hw, if_false]
        split_ifs <;> rfl
  · refine ⟨rfl, rfl, ?_, rfl⟩
    rfl

/-- C9 witness: the gate-set conjunct applied at a mapper whose PRG-bank
register has bit 4 set. -/
theorem mmc1_prg_ram_gate_witness :
    (({ Mmc1.new zeroBytes zeroBytes with prg_bank := 0b10000 } : Mmc1).prg_bank &&&
        0b10000 ≠ 0 →
      ({ Mmc1.new zeroBytes zeroBytes with prg_bank := 0b10000 } : Mmc1).read_cpu
          0x6001 = 0 ∧
      ({ Mmc1.new zeroBytes zeroBytes with prg_bank := 0b10000 } : Mmc1).write_cpu
          0x6001 0x55 =
        { Mmc1.new zeroBytes zeroBytes with prg_bank := 0b10000 }) :=
  ((mmc1_prg_ram_gate.1 { Mmc1.new zeroBytes zeroBytes with prg_bank := 0b10000 }
      0x6001 0x55 (by norm_num) (by norm_num)).1)

/-- The PPU state (`Ppu` in `src/ppu.rs`), with the register bytes
decomposed into boolean fields exactly as in the source.  `oam` and
`palette` (a 256-byte array in the source) are modelled as total
functions. -/
structure Ppu where
  nmi_enable : Bool
  ppu_master : Bool
  sprite_height : Bool
  background_tile_select : Bool
  sprite_tile_select : Bool
  increment_mode : Bool
  color_emph_b : Bool
  color_emph_g : Bool
  color_emph_r : Bool
  sprite_enable : Bool
  background_enable : Bool
  sprite_left_column_enable : Bool
  background_left_column_enable : Bool
  greyscale : Bool
  vblank : Bool
  sprite_0_hit : Bool
  sprite_overflow : Bool
  status_artifact : Nat
  oamaddr : Nat
  current_vram_address : Nat
  temp_vram_address : Nat
  fine_x_scroll : Nat
  write_toggle : Bool
  oam : Nat → Nat
  palette : Nat → Nat
  current_scanline : Nat
  current_cycle : Nat
  current_nametable_byte : Nat
  current_attributetable_byte : Nat
  current_tilebitmap_low : Nat
  current_tilebitmap_high : Nat

/-- `Ppu::new` (`src/ppu.rs:57`). -/
def Ppu.new : Ppu :=
  { nmi_enable := false
    ppu_master := false
    sprite_height := false
    background_tile_select := false
    sprite_tile_select := false
    increment_mode := false
    color_emph_b := false
    color_emph_g := false
    color_emph_r := false
    sprite_enable := false
    background_enable := false
    sprite_left_column_enable := false
    background_left_column_enable := false
    greyscale := false
    vblank := false
    sprite_0_hit := false
    sprite_overflow := false
    status_artifact := 0
    oamaddr := 0
    current_vram_address := 0
    temp_vram_address := 0
    fine_x_scroll := 0
    write_toggle := false
    oam := fun _ => 0
    palette := fun _ => 0
    current_scanline := 261
    current_cycle := 0
    current_nametable_byte := 0
    current_attributetable_byte := 0
    current_tilebitmap_low := 0
    current_tilebitmap_high := 0 }

/-- `Ppu::read_ppu` (`src/ppu.rs:199`): the 14-bit PPU bus.  Addresses up to
`$3EFF` go to the cartridge; `$3F00-$3FFF` index the palette array with the
`$3F10/14/18/1C` entries aliased onto `$3F00/04/08/0C`.  The palette array
has 256 entries in the source, so an address beyond `$3FFF` indexes out of
bounds and panics: modelled as `none`. -/
def Ppu.read_ppu (p : Ppu) (cartridge : Mmc1) (addr : Nat) : Option Nat :=
  if addr ≤ 0x3EFF then
    some (cartridge.read_ppu addr)
  else if addr = 0x3F10 ∨ addr = 0x3F14 ∨ addr = 0x3F18 ∨ addr = 0x3F1C then
    some (p.palette (addr - 0x3F00 - 0x10))
  else if addr - 0x3F00 < 256 then
    some (p.palette (addr - 0x3F00))
  else
    none

/-- `Ppu::write_ppu` (`src/ppu.rs:211`): palette writes store only the low
6 bits; out-of-bounds palette indexing (address beyond `$3FFF`) panics,
modelled as `none`. -/
def Ppu.write_ppu (p : Ppu) (cartridge : Mmc1) (addr value : Nat) :
    Option (Ppu × Mmc1) :=
  if addr ≤ 0x3EFF then
    some (p, cartridge.write_ppu addr value)
  else if addr = 0x3F10 ∨ addr = 0x3F14 ∨ addr = 0x3F18 ∨ addr = 0x3F1C then
    some ({ p with palette := updFn p.palette (addr - 0x3F00 - 0x10) (value &&& 0b00111111) },
      cartridge)
  else if addr - 0x3F00 < 256 then
    some ({ p with palette := updFn p.palette (addr - 0x3F00) (value &&& 0b00111111) },
      cartridge)
  else
    none

/-- `Ppu::read` (`src/ppu.rs:93`): CPU-visible register read.  The Rust
match panics (`unreachable!()`) for any address other than the eight
registers, modelled as `none`; every successful read latches the result in
the open-bus artefact byte. -/
def Ppu.read (p : Ppu) (cartridge : Mmc1) (addr : Nat) : Option (Nat × Ppu) :=
  if addr = 0x2002 then
    let p := { p with write_toggle := false }
    let result := (p.status_artifact &&& 0b00011111) |||
      (if p.sprite_overflow then 0b00100000 else 0) |||
      (if p.sprite_0_hit then 0b01000000 else 0) |||
      (if p.vblank then 0b10000000 else 0)
    some (result, { p with status_artifact := result })
  else if addr = 0x2004 then
    let result := p.oam p.oamaddr
    some (result, { p with status_artifact := result })
  else if addr = 0x2007 then
    match p.read_ppu cartridge p.current_vram_address with
    | none => none
    | some result =>
      let v := (p.current_vram_address + (if p.increment_mode then 32 else 1)) % 65536
      some (result, { p with current_vram_address := v &&& 0x3FFF, status_artifact := result })
  else if addr = 0x2000 ∨ addr = 0x2001 ∨ addr = 0x2003 ∨ addr = 0x2005 ∨ addr = 0x2006 then
    some (p.status_artifact, p)
  else
    none

/-- `Ppu::write` (`src/ppu.rs:127`): CPU-visible register write.  The u16
complement masks of the source (`!0b1110011_11100000 = 0x8C1F`,
`!0b11111 = 0xFFE0`, `!0xFF00 = 0x00FF`, `!0xFF = 0xFF00`) appear as the
corresponding literals.  Non-register addresses panic, modelled as `none`;
every write latches the value in the open-bus artefact byte. -/
def Ppu.write (p : Ppu) (cartridge : Mmc1) (addr value : Nat) :
    Option (Ppu × Mmc1) :=
  if addr = 0x2000 then
    some ({ p with
      nmi_enable             := value &&& 0b10000000 ≠ 0
      ppu_master             := value &&& 0b01000000 ≠ 0
      sprite_height          := value &&& 0b00100000 ≠ 0
      background_tile_select := value &&& 0b00010000 ≠ 0
      sprite_tile_select     := value &&& 0b00001000 ≠ 0
      increment_mode         := value &&& 0b00000100 ≠ 0
      temp_vram_address      := (value &&& 0b00000011) <<< 10
      status_artifact        := value }, cartridge)
  else if addr = 0x2001 then
    some ({ p with
      color_emph_b                  := value &&& 0b10000000 ≠ 0
      color_emph_g                  := value &&& 0b01000000 ≠ 0
      color_emph_r                  := value &&& 0b00100000 ≠ 0
      sprite_enable                 := value &&& 0b00010000 ≠ 0
      background_enable             := value &&& 0b00001000 ≠ 0
      sprite_left_column_enable     := value &&& 0b00000100 ≠ 0
      background_left_column_enable := value &&& 0b00000010 ≠ 0
      greyscale                     := value &&& 0b00000001 ≠ 0
      status_artifact               := value }, cartridge)
  else if addr = 0x2002 then
    some ({ p with status_artifact := value }, cartridge)
  else if addr = 0x2003 then
    some ({ p with oamaddr := value, status_artifact := value }, cartridge)
  else if addr = 0x2004 then
    some ({ p with
      oam := updFn p.oam p.oamaddr value
      oamaddr := (p.oamaddr + 1) % 256
      status_artifact := value }, cartridge)
  else if addr = 0x2005 then
    if p.write_toggle then
      let t := p.temp_vram_address &&& 0x8C1F
      let t := t ||| ((value >>> 3) <<< 5)
      let t := t ||| ((value &&& 0b111) <<< 12)
      some ({ p with
        temp_vram_address := t
        write_toggle := false
        status_artifact := value }, cartridge)
    else
      let t := p.temp_vram_address &&& 0xFFE0
      let t := t ||| (value >>> 3)
      some ({ p with
        temp_vram_address := t
        fine_x_scroll := value &&& 0b111
        write_toggle := true
        status_artifact := value }, cartridge)
  else if addr = 0x2006 then
    if p.write_toggle then
      let t := (p.temp_vram_address &&& 0xFF00) ||| value
      some ({ p with
        temp_vram_address := t
        current_vram_address := t
        write_toggle := false
        status_artifact := value }, cartridge)
    else
      let t := (p.temp_vram_address &&& 0x00FF) ||| ((value &&& 0b111111) <<< 8)
      some ({ p with
        temp_vram_address := t
        write_toggle := true
        status_artifact := value }, cartridge)
  else if addr = 0x2007 then
    match p.write_ppu cartridge p.current_vram_address value with
    | none => none
    | some (p, cartridge) =>
      let v := (p.current_vram_address + (if p.increment_mode then 32 else 1)) % 65536
      some ({ p with
        current_vram_address := v &&& 0x3FFF
        status_artifact := value }, cartridge)
  else
    none

/-- `Ppu::tick_prerender_scanline` (`src/ppu.rs:241`): clears vblank at
dot 1 and wraps to scanline 0 after dot 340. -/
def Ppu.tick_prerender_scanline (p : Ppu) : Ppu :=
  let p := if p.current_cycle = 1 then { p with vblank := false } else p
  if p.current_cycle = 340 then
    { p with current_scanline := 0, current_cycle := 0 }
  else
    { p with current_cycle := p.current_cycle + 1 }

/-- `Ppu::tick_postrender_scanline` (`src/ppu.rs:325`). -/
def Ppu.tick_postrender_scanline (p : Ppu) : Ppu :=
  if p.current_cycle = 340 then
    { p with current_scanline := p.current_scanline + 1, current_cycle := 0 }
  else
    { p with current_cycle := p.current_cycle + 1 }

/-- `Ppu::tick_vblank_scanline` (`src/ppu.rs:334`): sets vblank at scanline
241 dot 1, and advances the scanline when the cycle counter reaches 260. -/
def Ppu.tick_vblank_scanline (p : Ppu) : Ppu :=
  let p :=
    if p.current_scanline = 241 ∧ p.current_cycle = 1 then { p with vblank := true } else p
  if p.current_cycle = 260 then
    { p with current_scanline := p.current_scanline + 1, current_cycle := 0 }
  else
    { p with current_cycle := p.current_cycle + 1 }

/-- `Ppu::tick_visible_scanline` (`src/ppu.rs:255`).  The `draw_8x1` calls
(dots where `cycle % 8 = 1` and dot 257) only emit pixels into the external
sink from a `&self` receiver, so they do not change the PPU state and are
omitted here; the background fetches at `cycle % 8 = 2/4/6/0` are kept. -/
def Ppu.tick_visible_scanline (p : Ppu) (cartridge : Mmc1) : Option Ppu := do
  let y := p.current_scanline
  let tile_y := y / 8
  let in_tile_y := y % 8
  let tile_x := (p.current_cycle - 1) / 8
  let p ←
    if p.current_cycle = 0 then
      pure p
    else if p.current_cycle ≤ 256 then
      match p.current_cycle % 8 with
      | 2 => do
        let b ← p.read_ppu cartridge (0x2000 + tile_y * 32 + tile_x)
        pure { p with current_nametable_byte := b }
      | 4 => do
        let b ← p.read_ppu cartridge (0x23C0 + (tile_y * 32 + tile_x) / 4)
        pure { p with current_attributetable_byte := b }
      | 6 => do
        let b ← p.read_ppu cartridge (p.current_nametable_byte * 16 + in_tile_y)
        pure { p with current_tilebitmap_low := b }
      | 0 => do
        let b ← p.read_ppu cartridge (p.current_nametable_byte * 16 + in_tile_y + 8)
        pure { p with current_tilebitmap_high := b }
      | _ => pure p
    else
      pure p
  if p.current_cycle = 340 then
    pure { p with current_scanline := p.current_scanline + 1, current_cycle := 0 }
  else
    pure { p with current_cycle := p.current_cycle + 1 }

/-- `Ppu::tick` (`src/ppu.rs:227`): dispatch on the current scanline; the
`unreachable!()` arm (scanline beyond 261) is modelled as `none`. -/
def Ppu.tick (p : Ppu) (cartridge : Mmc1) : Option Ppu :=
  if p.current_scanline = 261 then
    some p.tick_prerender_scanline
  else if p.current_scanline ≤ 239 then
    p.tick_visible_scanline cartridge
  else if p.current_scanline = 240 then
    some p.tick_postrender_scanline
  else if p.current_scanline ≤ 260 then
    some p.tick_vblank_scanline
  else
    none

/-- C2: PPU frame timing, evaluated at the failing input.  At scanline 241,
dot 260, a tick advances the scanline counter to 242 and resets the cycle
counter, so the vblank scanlines 241-260 consist of only 261 dots instead
of the claimed 341 (`tick_vblank_scanline` tests `current_cycle == 260`
where every other scanline handler tests 340).  The remaining conjuncts
evaluate the parts of the claim the code does honour: the tick at scanline
241 dot 1 sets the vblank flag, the tick at scanline 261 dot 1 clears it,
and a visible-scanline tick at dot 340 does advance only after cycle
340. -/
theorem ppu_vblank_scanline_length_bug :
    ((Ppu.tick { Ppu.new with current_scanline := 241, current_cycle := 260, vblank := true }
        (Mmc1.new zeroBytes zeroBytes)).map
      (fun q => (q.current_scanline, q.current_cycle))) = some (242, 0) ∧
    ((Ppu.tick { Ppu.new with current_scanline := 241, current_cycle := 1 }
        (Mmc1.new zeroBytes zeroBytes)).map
      (fun q => (q.current_scanline, q.current_cycle, q.vblank))) = some (241, 2, true) ∧
    ((Ppu.tick { Ppu.new with current_scanline := 261, current_cycle := 1, vblank := true }
        (Mmc1.new zeroBytes zeroBytes)).map
      (fun q => (q.current_scanline, q.current_cycle, q.vblank))) = some (261, 2, false) ∧
    ((Ppu.tick { Ppu.new with current_scanline := 3, current_cycle := 340 }
        (Mmc1.new zeroBytes zeroBytes)).map
      (fun q => (q.current_scanline, q.current_cycle))) = some (4, 0) ∧
    (260 : Nat) ≠ 340 :=
  ⟨rfl, rfl, rfl, rfl, by decide⟩

/-- C10: the VRAM-address safety invariant fails.  From the initial PPU
state the register write sequence `$2005←0`, `$2005←4`, `$2005←0`,
`$2006←0` routes bit 14 of the temporary VRAM address (planted by the
second `$2005` write) into `v` through the shared write-toggle latch,
leaving `v = $4000 > $3FFF`; the following `$2007` write then indexes the
palette array out of bounds (`Ppu::write_ppu` panics; modelled as
`none`). -/
theorem ppu_vram_address_overflow_bug :
    (let cart := Mmc1.new zeroBytes zeroBytes
     let step := fun (r : Ppu × Mmc1) (a v : Nat) => r.1.write r.2 a v
     ((((Ppu.new.write cart 0x2005 0).bind (fun r => step r 0x2005 4)).bind
         (fun r => step r 0x2005 0)).bind (fun r => step r 0x2006 0)).map
       (fun r => r.1.current_vram_address) = some 0x4000) ∧
    (let cart := Mmc1.new zeroBytes zeroBytes
     let step := fun (r : Ppu × Mmc1) (a v : Nat) => r.1.write r.2 a v
     ((((Ppu.new.write cart 0x2005 0).bind (fun r => step r 0x2005 4)).bind
         (fun r => step r 0x2005 0)).bind (fun r => step r 0x2006 0)).bind
       (fun r => step r 0x2007 0) = none) ∧
    ¬ ((0x4000 : Nat) ≤ 0x3FFF) :=
  ⟨rfl, rfl, by decide⟩


/-- The palette slot selected by a `$3F00-$3FFF` address in
`Ppu::read_ppu`/`Ppu::write_ppu`: the four aliased addresses redirect to
the base entries. -/
def palette_index (addr : Nat) : Nat :=
  if addr = 0x3F10 ∨ addr = 0x3F14 ∨ addr = 0x3F18 ∨ addr = 0x3F1C then
    addr - 0x3F00 - 0x10
  else
    addr - 0x3F00

/-- Write-then-read on the palette region: a read of `ar` observes a write
of `aw` whenever the two addresses select the same palette slot. -/
theorem palette_write_read (p : Ppu) (c : Mmc1) (v aw ar : Nat)
    (hw1 : 0x3F00 ≤ aw) (hw2 : aw ≤ 0x3FFF) (hr1 : 0x3F00 ≤ ar) (hr2 : ar ≤ 0x3FFF)
    (hidx : palette_index aw = palette_index ar) :
    ∃ p', p.write_ppu c aw v = some (p', c) ∧
      p'.read_ppu c ar = some (v &&& 0x3F) := by
  have kw : ¬ (aw ≤ 0x3EFF) := by omega
  have kr : ¬ (ar ≤ 0x3EFF) := by omega
  by_cases halw : aw = 0x3F10 ∨ aw = 0x3F14 ∨ aw = 0x3F18 ∨ aw = 0x3F1C
  · rw [palette_index, palette_index, if_pos halw] at hidx
    refine ⟨{ p with palette := updFn p.palette (aw - 0x3F00 - 0x10) (v &&& 0x3F) },
      by rw [Ppu.write_ppu, if_neg kw, if_pos halw], ?_⟩
    by_cases halr : ar = 0x3F10 ∨ ar = 0x3F14 ∨ ar = 0x3F18 ∨ ar = 0x3F1C
    · rw [if_pos halr] at hidx
      rw [Ppu.read_ppu, if_neg kr, if_pos halr, ← hidx]
      simp
    · rw [if_neg halr] at hidx
      have k2 : ar - 0x3F00 < 256 := by omega
      rw [Ppu.read_ppu, if_neg kr, if_neg halr, if_pos k2, ← hidx]
      simp
  · rw [palette_index, palette_index, if_neg halw] at hidx
    have k2w : aw - 0x3F00 < 256 := by omega
    refine ⟨{ p with palette := updFn p.palette (aw - 0x3F00) (v &&& 0x3F) },
      by rw [Ppu.write_ppu, if_neg kw, if_neg halw, if_pos k2w], ?_⟩
    by_cases halr : ar = 0x3F10 ∨ ar = 0x3F14 ∨ ar = 0x3F18 ∨ ar = 0x3F1C
    · rw [if_pos halr] at hidx
      rw [Ppu.read_ppu, if_neg kr, if_pos halr, ← hidx]
      simp
    · rw [if_neg halr] at hidx
      have k2 : ar - 0x3F00 < 256 := by omega
      rw [Ppu.read_ppu, if_neg kr, if_neg halr, if_pos k2, ← hidx]
      simp

/-- C8: palette aliasing round-trip on the PPU bus.  For each aliased pair,
writing lands in the base entry and reading the other member of the pair
returns the stored 6-bit value; and every palette write stores only the
low 6 bits, observable by reading back the written address. -/
theorem palette_alias_roundtrip (p : Ppu) (c : Mmc1) (v alias0 base : Nat)
    (hmem : (alias0, base) ∈
      [(0x3F10, 0x3F00), (0x3F14, 0x3F04), (0x3F18, 0x3F08), (0x3F1C, 0x3F0C)]) :
    (∃ p', p.write_ppu c alias0 v = some (p', c) ∧
      p'.read_ppu c base = some (v &&& 0x3F)) ∧
    (∃ p', p.write_ppu c base v = some (p', c) ∧
      p'.read_ppu c alias0 = some (v &&& 0x3F)) ∧
    (∀ a, 0x3F00 ≤ a → a ≤ 0x3FFF →
      ∃ p', p.write_ppu c a v = some (p', c) ∧
        p'.read_ppu c a = some (v &&& 0x3F)) := by
  simp only [List.mem_cons, List.not_mem_nil, or_false, Prod.mk.injEq] at hmem
  refine ⟨?_, ?_, fun a h1 h2 => palette_write_read p c v a a h1 h2 h1 h2 rfl⟩ <;>
    rcases hmem with ⟨h, h'⟩ | ⟨h, h'⟩ | ⟨h, h'⟩ | ⟨h, h'⟩ <;> subst h <;> subst h' <;>
    exact palette_write_read p c v _ _ (by norm_num) (by norm_num) (by norm_num)
      (by norm_num) (by rw [palette_index, palette_index]; norm_num)

/-- C8 witness: the `$3F10`/`$3F00` pair at value `0xFF` on the initial
PPU. -/
theorem palette_alias_roundtrip_witness :
    (∃ p', Ppu.new.write_ppu (Mmc1.new zeroBytes zeroBytes) 0x3F10 0xFF =
        some (p', Mmc1.new zeroBytes zeroBytes) ∧
      p'.read_ppu (Mmc1.new zeroBytes zeroBytes) 0x3F00 = some (0xFF &&& 0x3F)) ∧
    (∃ p', Ppu.new.write_ppu (Mmc1.new zeroBytes zeroBytes) 0x3F00 0xFF =
        some (p', Mmc1.new zeroBytes zeroBytes) ∧
      p'.read_ppu (Mmc1.new zeroBytes zeroBytes) 0x3F10 = some (0xFF &&& 0x3F)) :=
  ⟨(palette_alias_roundtrip Ppu.new (Mmc1.new zeroBytes zeroBytes) 0xFF 0x3F10 0x3F00
      (by simp)).1,
   (palette_alias_roundtrip Ppu.new (Mmc1.new zeroBytes zeroBytes) 0xFF 0x3F10 0x3F00
      (by simp)).2.1⟩

/-- Memory-map constants (`src/memory_map.rs`). -/
def RAM_SIZE : Nat := 2048

def PPU_START : Nat := 0x2000

def APU_IO_START : Nat := 0x4000

def CARTRIDGE_START : Nat := 0x4020

/-- Start of the stack (`src/cpu/cpu.rs:16`). -/
def STACK_START : Nat := 0x0100

/-- The CPU register file (`Registers` in `src/cpu/cpu.rs`). -/
structure Registers where
  a : Nat
  x : Nat
  y : Nat
  pc : Nat
  s : Nat
  p : Status

/-- `Registers::new` (`src/cpu/cpu.rs:71`). -/
def Registers.new : Registers :=
  { a := 0, x := 0, y := 0, pc := 0, s := 0xFD, p := Status.set_value 0x34 }

/-- The CPU (`Cpu` in `src/cpu/cpu.rs`): register file, cached operand
bytes, and the 2 KiB internal RAM modelled as a total function. -/
structure Cpu where
  registers : Registers
  opcode8 : Nat
  opcode16 : Nat
  ram : Nat → Nat

/-- `Cpu::new` (`src/cpu/cpu.rs:101`). -/
def Cpu.new : Cpu :=
  { registers := Registers.new, opcode8 := 0, opcode16 := 0, ram := fun _ => 0 }

/-- The hardware bundle handed to the CPU on each access (`Hardware` in
`src/cpu/cpu.rs`); the APU is a stateless stub in the source. -/
structure Hardware where
  ppu : Ppu
  cartridge : Mmc1

/-- `Cpu::write_memory` (`src/cpu/cpu.rs:142`): internal RAM below
`$2000` (mirrored through `address & (RAM_SIZE - 1)`), PPU registers below
`$4000` (which may panic, hence `Option`), the APU/IO stub below `$4020`
(writes discarded), and the cartridge above. -/
def Cpu.write_memory (c : Cpu) (hw : Hardware) (address value : Nat) :
    Option (Cpu × Hardware) :=
  if address < PPU_START then
    some ({ c with ram := updFn c.ram (address &&& (RAM_SIZE - 1)) value }, hw)
  else if address < APU_IO_START then
    match hw.ppu.write hw.cartridge address value with
    | none => none
    | some (p, cart) => some (c, { ppu := p, cartridge := cart })
  else if address < CARTRIDGE_START then
    some (c, hw)
  else
    some (c, { hw with cartridge := hw.cartridge.write_cpu address value })

/-- `Cpu::read_memory` (`src/cpu/cpu.rs:154`): the APU/IO stub reads 0; PPU
register reads mutate the PPU (latch/toggle side effects). -/
def Cpu.read_memory (c : Cpu) (hw : Hardware) (address : Nat) :
    Option (Nat × Hardware) :=
  if address < PPU_START then
    some (c.ram (address &&& (RAM_SIZE - 1)), hw)
  else if address < APU_IO_START then
    match hw.ppu.read hw.cartridge address with
    | none => none
    | some (v, p) => some (v, { hw with ppu := p })
  else if address < CARTRIDGE_START then
    some (0, hw)
  else
    some (hw.cartridge.read_cpu address, hw)

theorem and_2047_eq_mod (x : Nat) : x &&& 2047 = x % 2048 := by
  have h := Nat.and_pow_two_sub_one_eq_mod x 11
  norm_num at h
  exact h

/-- A sequence of CPU bus writes, applied in order (address, value). -/
def applyWrites (ws : List (Nat × Nat)) (c : Cpu) (h : Hardware) :
    Option (Cpu × Hardware) :=
  match ws with
  | [] => some (c, h)
  | (a, v) :: ws =>
    match c.write_memory h a v with
    | none => none
    | some (c, h) => applyWrites ws c h

/-- The value the claim predicts for a read of `a`: the value of the most
recent write whose address is congruent to `a` modulo 2048, starting from
`dflt` (0 for a fresh CPU). -/
def lastWrite (ws : List (Nat × Nat)) (a dflt : Nat) : Nat :=
  match ws with
  | [] => dflt
  | (b, v) :: ws => lastWrite ws a (if b % 2048 = a % 2048 then v else dflt)

theorem applyWrites_ram (ws : List (Nat × Nat)) :
    ∀ (c : Cpu) (h : Hardware) (a : Nat), a < 0x2000 →
      (∀ p ∈ ws, p.1 < 0x2000) →
      ∃ c', applyWrites ws c h = some (c', h) ∧
        c'.ram (a &&& 2047) = lastWrite ws a (c.ram (a &&& 2047)) := by
  induction ws with
  | nil => exact fun c h a _ _ => ⟨c, rfl, rfl⟩
  | cons w ws ih =>
    intro c h a ha hws
    have hw : w.1 < 0x2000 := hws w (List.mem_cons_self w ws)
    have htail : ∀ p ∈ ws, p.1 < 0x2000 := fun p hp => hws p (List.mem_cons_of_mem w hp)
    obtain ⟨c', hc', hram⟩ :=
      ih { c with ram := updFn c.ram (w.1 &&& (RAM_SIZE - 1)) w.2 } h a ha htail
    refine ⟨c', ?_, ?_⟩
    · show applyWrites (w :: ws) c h = _
      rw [applyWrites, Cpu.write_memory, if_pos (by simpa [PPU_START] using hw)]
      exact hc'
    · rw [hram]
      show lastWrite ws a (updFn c.ram (w.1 &&& (RAM_SIZE - 1)) w.2 (a &&& 2047)) =
        lastWrite ((w.1, w.2) :: ws) a (c.ram (a &&& 2047))
      rw [lastWrite]
      congr 1
      rw [show RAM_SIZE - 1 = 2047 from rfl, updFn]
      by_cases he : w.1 % 2048 = a % 2048
      · rw [if_pos he, if_pos (by rw [and_2047_eq_mod, and_2047_eq_mod]; omega)]
      · rw [if_neg he, if_neg (by rw [and_2047_eq_mod, and_2047_eq_mod]; omega)]

/-- C7: internal-RAM mirroring.  Starting from a fresh CPU, after any
sequence of writes to `$0000-$1FFF`, a read of any address `a` in that
range returns the value of the most recent write to any address congruent
to `a` modulo 2048, and 0 if there was none: the 2 KiB RAM is mirrored four
times for both reads and writes. -/
theorem ram_mirroring (ws : List (Nat × Nat)) (a : Nat) (ha : a < 0x2000)
    (hws : ∀ p ∈ ws, p.1 < 0x2000) :
    ∃ (c : Cpu) (h : Hardware),
      applyWrites ws Cpu.new { ppu := Ppu.new, cartridge := Mmc1.new zeroBytes zeroBytes } =
        some (c, h) ∧
      c.read_memory h a = some (lastWrite ws a 0, h) := by
  obtain ⟨c', hc', hram⟩ := applyWrites_ram ws Cpu.new
    { ppu := Ppu.new, cartridge := Mmc1.new zeroBytes zeroBytes } a ha hws
  refine ⟨c', _, hc', ?_⟩
  rw [Cpu.read_memory, if_pos (by simpa [PPU_START] using ha),
    show RAM_SIZE - 1 = 2047 from rfl, hram]
  rfl

/-- C7 witness: writes at `$0005` and `$0805` land in the same RAM cell; a
read of `$1005` sees the later one. -/
theorem ram_mirroring_witness :
    ∃ (c : Cpu) (h : Hardware),
      applyWrites [(0x0005, 7), (0x0805, 9)] Cpu.new
        { ppu := Ppu.new, cartridge := Mmc1.new zeroBytes zeroBytes } = some (c, h) ∧
      c.read_memory h 0x1005 = some (9, h) := by
  have h := ram_mirroring [(0x0005, 7), (0x0805, 9)] 0x1005 (by norm_num)
    (by intro p hp; fin_cases hp <;> norm_num)
  simpa [lastWrite] using h

/-- `INSTRUCTION_SIZES` (`src/cpu/instructions.rs:1267`): bytes consumed per
opcode, 16 rows of 16 entries. -/
def INSTRUCTION_SIZES_TABLE : List Nat := [
  2, 2, 1, 2, 2, 2, 2, 2, 1, 2, 1, 2, 3, 3, 3, 3,
  2, 2, 1, 2, 2, 2, 2, 2, 1, 3, 1, 3, 3, 3, 3, 3,
  3, 2, 1, 2, 2, 2, 2, 2, 1, 2, 1, 2, 3, 3, 3, 3,
  2, 2, 1, 2, 2, 2, 2, 2, 1, 3, 1, 3, 3, 3, 3, 3,
  1, 2, 1, 2, 2, 2, 2, 2, 1, 2, 1, 2, 3, 3, 3, 3,
  2, 2, 1, 2, 2, 2, 2, 2, 1, 3, 1, 3, 3, 3, 3, 3,
  1, 2, 1, 2, 2, 2, 2, 2, 1, 2, 1, 2, 3, 3, 3, 3,
  2, 2, 1, 2, 2, 2, 2, 2, 1, 3, 1, 3, 3, 3, 3, 3,
  2, 2, 2, 2, 2, 2, 2, 2, 1, 2, 1, 1, 3, 3, 3, 3,
  2, 2, 1, 1, 2, 2, 2, 2, 1, 3, 1, 1, 1, 3, 1, 1,
  2, 2, 2, 2, 2, 2, 2, 2, 1, 2, 1, 2, 3, 3, 3, 3,
  2, 2, 1, 2, 2, 2, 2, 2, 1, 3, 1, 1, 3, 3, 3, 3,
  2, 2, 2, 2, 2, 2, 2, 2, 1, 2, 1, 2, 3, 3, 3, 3,
  2, 2, 1, 2, 2, 2, 2, 2, 1, 3, 1, 3, 3, 3, 3, 3,
  2, 2, 2, 2, 2, 2, 2, 2, 1, 2, 1, 2, 3, 3, 3, 3,
  2, 2, 1, 2, 2, 2, 2, 2, 1, 3, 1, 3, 3, 3, 3, 3]

def INSTRUCTION_SIZES (op : Nat) : Nat := INSTRUCTION_SIZES_TABLE.getD op 0

/-- Result of the fetch/decode phase of `Cpu::tick`: the CPU with advanced
`pc` and refreshed operand caches, the hardware after the bus reads, the
opcode byte, and (as bookkeeping for the reads-exactly-N property) the list
of bus addresses read, in order. -/
structure FetchResult where
  cpu : Cpu
  hw : Hardware
  op : Nat
  reads : List Nat

/-- The fetch/decode phase of `Cpu::tick` (`src/cpu/cpu.rs:181-203,228`):
read the opcode at `pc`, then 0, 1, or 2 operand bytes at successive
(wrapping) addresses, caching them in `opcode8`/`opcode16` (little-endian),
and leave `registers.pc` advanced past the instruction; the
`unreachable!()` arm for a size outside {1,2,3} is `none`. -/
def Cpu.tick_fetch (c : Cpu) (h : Hardware) : Option FetchResult :=
  let pc0 := c.registers.pc
  match c.read_memory h pc0 with
  | none => none
  | some (op, h1) =>
    let pc1 := (pc0 + 1) % 65536
    match INSTRUCTION_SIZES op with
    | 1 => some ⟨{ c with registers := { c.registers with pc := pc1 } }, h1, op, [pc0]⟩
    | 2 =>
      match c.read_memory h1 pc1 with
      | none => none
      | some (b1, h2) =>
        let pc2 := (pc1 + 1) % 65536
        some ⟨{ c with
            opcode8 := b1
            registers := { c.registers with pc := pc2 } },
          h2, op, [pc0, pc1]⟩
    | 3 =>
      match c.read_memory h1 pc1 with
      | none => none
      | some (b1, h2) =>
        let pc2 := (pc1 + 1) % 65536
        match c.read_memory h2 pc2 with
        | none => none
        | some (b2, h3) =>
          let pc3 := (pc2 + 1) % 65536
          some ⟨{ c with
              opcode16 := (b2 <<< 8) ||| b1
              registers := { c.registers with pc := pc3 } },
            h3, op, [pc0, pc1, pc2]⟩
    | _ => none

/-- `Cpu::tick` (`src/cpu/cpu.rs:179`), parametrized by the dispatch table:
after the fetch phase, the handler for the opcode runs on the post-fetch
CPU (pc already advanced) and the post-fetch hardware. -/
def Cpu.tick_with (exec : Nat → Cpu → Hardware → Option (Cpu × Hardware))
    (c : Cpu) (h : Hardware) : Option (Cpu × Hardware) :=
  match c.tick_fetch h with
  | none => none
  | some r => exec r.op r.cpu r.hw

/-- C3: the fetcher reads exactly `INSTRUCTION_SIZES[op]` bytes.  Every
table entry is 1, 2, or 3; on a successful fetch the bus is read at exactly
the `size` successive (wrapping) addresses starting at `pc`, the operand
bytes are cached little-endian in `opcode8`/`opcode16`, the registers and
RAM are otherwise untouched, `pc` is advanced by the declared size, and the
instruction handler of `Cpu::tick` runs on that post-fetch state. -/
theorem cpu_fetch_spec (c : Cpu) (h : Hardware) (r : FetchResult)
    (hpc : c.registers.pc < 65536) (hr : c.tick_fetch h = some r) :
    (∀ op : Fin 256, INSTRUCTION_SIZES op.val = 1 ∨ INSTRUCTION_SIZES op.val = 2 ∨
      INSTRUCTION_SIZES op.val = 3) ∧
    (INSTRUCTION_SIZES r.op = 1 ∨ INSTRUCTION_SIZES r.op = 2 ∨ INSTRUCTION_SIZES r.op = 3) ∧
    r.reads.length = INSTRUCTION_SIZES r.op ∧
    r.reads = (List.range (INSTRUCTION_SIZES r.op)).map
      (fun i => (c.registers.pc + i) % 65536) ∧
    r.cpu.registers.pc = (c.registers.pc + INSTRUCTION_SIZES r.op) % 65536 ∧
    r.cpu.registers.a = c.registers.a ∧ r.cpu.registers.x = c.registers.x ∧
    r.cpu.registers.y = c.registers.y ∧ r.cpu.registers.s = c.registers.s ∧
    r.cpu.registers.p = c.registers.p ∧ r.cpu.ram = c.ram ∧
    (INSTRUCTION_SIZES r.op = 1 →
      r.cpu.opcode8 = c.opcode8 ∧ r.cpu.opcode16 = c.opcode16) ∧
    (INSTRUCTION_SIZES r.op = 2 → ∃ h1,
      c.read_memory h c.registers.pc = some (r.op, h1) ∧
      c.read_memory h1 ((c.registers.pc + 1) % 65536) = some (r.cpu.opcode8, r.hw) ∧
      r.cpu.opcode16 = c.opcode16) ∧
    (INSTRUCTION_SIZES r.op = 3 → ∃ h1 b1 h2 b2,
      c.read_memory h c.registers.pc = some (r.op, h1) ∧
      c.read_memory h1 ((c.registers.pc + 1) % 65536) = some (b1, h2) ∧
      c.read_memory h2 ((c.registers.pc + 2) % 65536) = some (b2, r.hw) ∧
      r.cpu.opcode16 = (b2 <<< 8) ||| b1 ∧ r.cpu.opcode8 = c.opcode8) ∧
    (∀ exec, c.tick_with exec h = exec r.op r.cpu r.hw) := by
  have htick : ∀ exec, c.tick_with exec h = exec r.op r.cpu r.hw := by
    intro exec
    rw [Cpu.tick_with, hr]
  rw [Cpu.tick_fetch] at hr
  dsimp only at hr
  split at hr
  · exact absurd hr (by simp)
  case _ op h1 heq0 =>
    split at hr
    case _ heq1 =>
      injection hr with hr
      subst hr
      refine ⟨by decide, by simp [heq1], by simp [heq1], ?_, ?_, rfl, rfl, rfl, rfl, rfl,
        rfl, fun _ => ⟨rfl, rfl⟩, ?_, ?_, htick⟩
      · simp [heq1, List.range_succ]
        omega
      · simp [heq1]
      · intro hcontra
        rw [heq1] at hcontra
        exact absurd hcontra (by norm_num)
      · intro hcontra
        rw [heq1] at hcontra
        exact absurd hcontra (by norm_num)
    case _ heq1 =>
      split at hr
      · exact absurd hr (by simp)
      case _ b1 h2 heq2 =>
        injection hr with hr
        subst hr
        refine ⟨by decide, by simp [heq1], by simp [heq1], ?_, ?_, rfl, rfl, rfl, rfl, rfl,
          rfl, ?_, ?_, ?_, htick⟩
        · first
          | (simp [heq1, List.range_succ]; done)
          | (simp [heq1, List.range_succ]; omega)
          | (simp [heq1, List.range_succ]; constructor <;> omega)
        · first
          | (simp [heq1]; done)
          | (simp [heq1]; omega)
        · intro hcontra
          rw [heq1] at hcontra
          exact absurd hcontra (by norm_num)
        · intro _
          exact ⟨h1, heq0, by simpa using heq2, rfl⟩
        · intro hcontra
          rw [heq1] at hcontra
          exact absurd hcontra (by norm_num)
    case _ heq1 =>
      split at hr
      · exact absurd hr (by simp)
      case _ b1 h2 heq2 =>
        split at hr
        · exact absurd hr (by simp)
        case _ b2 h3 heq3 =>
          injection hr with hr
          subst hr
          refine ⟨by decide, by simp [heq1], by simp [heq1], ?_, ?_, rfl, rfl, rfl, rfl,
            rfl, rfl, ?_, ?_, ?_, htick⟩
          · first
            | (simp [heq1, List.range_succ]; done)
            | (simp [heq1, List.range_succ]; omega)
            | (simp [heq1, List.range_succ]; constructor <;> omega)
          · first
            | (simp [heq1]; done)
            | (simp [heq1]; omega)
          · intro hcontra
            rw [heq1] at hcontra
            exact absurd hcontra (by norm_num)
          · intro hcontra
            rw [heq1] at hcontra
            exact absurd hcontra (by norm_num)
          · intro _
            refine ⟨h1, b1, h2, b2, heq0, by simpa using heq2, ?_, rfl, rfl⟩
            have : ((c.registers.pc + 1) % 65536 + 1) % 65536 =
              (c.registers.pc + 2) % 65536 := by omega
            rw [← this]
            exact heq3
    case _ heq1 =>
      exact absurd hr (by simp)

/-- C3 witness: fetching from a fresh CPU (opcode byte 0 = BRK, declared
size 2) reads two bytes and advances `pc` by 2. -/
theorem cpu_fetch_spec_witness :
    ∃ r, Cpu.new.tick_fetch { ppu := Ppu.new, cartridge := Mmc1.new zeroBytes zeroBytes } =
        some r ∧ r.reads.length = INSTRUCTION_SIZES r.op ∧
      r.cpu.registers.pc = (Cpu.new.registers.pc + INSTRUCTION_SIZES r.op) % 65536 := by
  refine ⟨_, rfl, ?_, ?_⟩
  · exact (cpu_fetch_spec Cpu.new _ _ (by decide) rfl).2.2.1
  · exact (cpu_fetch_spec Cpu.new _ _ (by decide) rfl).2.2.2.2.1

/-- `Cpu::jump_to_interrupt` (`src/cpu/cpu.rs:116`): push PCH, PCL, then
the packed status (B bit from `break_flag`), set I, and load `pc` from the
little-endian vector at `$FFFE/$FFFF`.  `u8`/`u16` truncations appear as
`% 256`; the stack pointer decrements wrap as `(s + 255) % 256`. -/
def Cpu.jump_to_interrupt (c : Cpu) (hw : Hardware) (break_flag : Bool) :
    Option (Cpu × Hardware) :=
  let sp := c.registers.s
  let old_pc := c.registers.pc
  let old_p := c.registers.p.value break_flag
  match c.write_memory hw (STACK_START + sp) ((old_pc >>> 8) % 256) with
  | none => none
  | some (c, hw) =>
    let sp := (sp + 255) % 256
    match c.write_memory hw (STACK_START + sp) (old_pc % 256) with
    | none => none
    | some (c, hw) =>
      let sp := (sp + 255) % 256
      match c.write_memory hw (STACK_START + sp) old_p with
      | none => none
      | some (c, hw) =>
        let sp := (sp + 255) % 256
        match c.read_memory hw 0xFFFE with
        | none => none
        | some (addr_lo, hw) =>
          match c.read_memory hw 0xFFFF with
          | none => none
          | some (addr_hi, hw) =>
            some ({ c with registers := { c.registers with
              pc := (addr_hi <<< 8) ||| addr_lo
              p := { c.registers.p with interrupt := true }
              s := sp } }, hw)

/-- Modelled from the spec: NMI interrupt servicing is absent from the
source (`jump_to_interrupt` is only reached through BRK and always uses
`$FFFE/$FFFF`); per the spec the NMI slot performs the same push sequence
but loads the vector from `$FFFA/$FFFB`. -/
def Cpu.jump_to_interrupt_nmi (c : Cpu) (hw : Hardware) (break_flag : Bool) :
    Option (Cpu × Hardware) :=
  let sp := c.registers.s
  let old_pc := c.registers.pc
  let old_p := c.registers.p.value break_flag
  match c.write_memory hw (STACK_START + sp) ((old_pc >>> 8) % 256) with
  | none => none
  | some (c, hw) =>
    let sp := (sp + 255) % 256
    match c.write_memory hw (STACK_START + sp) (old_pc % 256) with
    | none => none
    | some (c, hw) =>
      let sp := (sp + 255) % 256
      match c.write_memory hw (STACK_START + sp) old_p with
      | none => none
      | some (c, hw) =>
        let sp := (sp + 255) % 256
        match c.read_memory hw 0xFFFA with
        | none => none
        | some (addr_lo, hw) =>
          match c.read_memory hw 0xFFFB with
          | none => none
          | some (addr_hi, hw) =>
            some ({ c with registers := { c.registers with
              pc := (addr_hi <<< 8) ||| addr_lo
              p := { c.registers.p with interrupt := true }
              s := sp } }, hw)

/-- `OpBRK::execute` (`src/cpu/instructions.rs:438`): BRK services the
interrupt with the break flag set. -/
def opBRK_execute (c : Cpu) (hw : Hardware) : Option (Cpu × Hardware) :=
  c.jump_to_interrupt hw true

/-- `OpPHP::execute` (`src/cpu/instructions.rs:889`): PHP pushes the packed
status with the break flag set, then decrements S. -/
def opPHP_execute (c : Cpu) (hw : Hardware) : Option (Cpu × Hardware) :=
  let sp := c.registers.s
  let value := c.registers.p.value true
  match c.write_memory hw (STACK_START + sp) value with
  | none => none
  | some (c, hw) =>
    some ({ c with registers := { c.registers with s := (sp + 255) % 256 } }, hw)

/-- What the C6 claim demands of one interrupt service with vector
`vlo`/`vhi`: PCH is pushed at `$0100+S`, then PCL, then the packed status,
S drops by 3, I is set, and `pc` is loaded little-endian from the vector;
nothing else changes. -/
def interruptServiceSpec (c : Cpu) (hw : Hardware) (bf : Bool) (vlo vhi : Nat)
    (res : Option (Cpu × Hardware)) : Prop :=
  ∃ c', res = some (c', hw) ∧
    c'.ram = updFn (updFn (updFn c.ram
        (0x100 + c.registers.s) (c.registers.pc >>> 8))
        (0x100 + (c.registers.s + 255) % 256) (c.registers.pc % 256))
      (0x100 + (c.registers.s + 254) % 256) (c.registers.p.value bf) ∧
    c'.registers.s = (c.registers.s + 253) % 256 ∧
    c'.registers.p = { c.registers.p with interrupt := true } ∧
    c'.registers.pc = ((hw.cartridge.read_cpu vhi) <<< 8) ||| hw.cartridge.read_cpu vlo ∧
    c'.registers.a = c.registers.a ∧ c'.registers.x = c.registers.x ∧
    c'.registers.y = c.registers.y ∧ c'.opcode8 = c.opcode8 ∧ c'.opcode16 = c.opcode16

theorem write_memory_ram (c : Cpu) (hw : Hardware) (a v : Nat) (h : a < 0x2000) :
    c.write_memory hw a v = some ({ c with ram := updFn c.ram (a % 2048) v }, hw) := by
  rw [Cpu.write_memory, if_pos (show a < PPU_START from h),
    show RAM_SIZE - 1 = 2047 from rfl, and_2047_eq_mod]

theorem read_memory_cartridge (c : Cpu) (hw : Hardware) (a : Nat) (h : 0x4020 ≤ a) :
    c.read_memory hw a = some (hw.cartridge.read_cpu a, hw) := by
  rw [Cpu.read_memory, if_neg (show ¬ (a < PPU_START) from by show ¬ (a < 0x2000); omega),
    if_neg (show ¬ (a < APU_IO_START) from by show ¬ (a < 0x4000); omega),
    if_neg (show ¬ (a < CARTRIDGE_START) from by show ¬ (a < 0x4020); omega)]

set_option maxHeartbeats 2000000 in
/-- C6: interrupt entry.  `jump_to_interrupt` (as invoked by BRK) pushes
PCH, PCL, then the packed status byte, decrements S by 3, sets I, and loads
`pc` from `$FFFE/$FFFF`; the spec-modelled NMI variant does the same from
`$FFFA/$FFFB`; the pushed byte's bit 4 equals the `break_flag` argument,
which BRK and PHP pass as `true` (so B is set exactly for those sources and
clear for hardware interrupts). -/
theorem interrupt_service_spec :
    (∀ (c : Cpu) (hw : Hardware) (bf : Bool),
      c.registers.pc < 65536 → c.registers.s < 256 →
      interruptServiceSpec c hw bf 0xFFFE 0xFFFF (c.jump_to_interrupt hw bf) ∧
      interruptServiceSpec c hw bf 0xFFFA 0xFFFB (c.jump_to_interrupt_nmi hw bf)) ∧
    (∀ (s : Status) (bf : Bool), (s.value bf).testBit 4 = bf) ∧
    (∀ (c : Cpu) (hw : Hardware), opBRK_execute c hw = c.jump_to_interrupt hw true) ∧
    (∀ (c : Cpu) (hw : Hardware), c.registers.s < 256 →
      ∃ c', opPHP_execute c hw = some (c', hw) ∧
        c'.ram = updFn c.ram (0x100 + c.registers.s) (c.registers.p.value true) ∧
        c'.registers.s = (c.registers.s + 255) % 256) := by
  refine ⟨?_, by decide, fun _ _ => rfl, ?_⟩
  · intro c hw bf hpc hs
    have e1 := write_memory_ram c hw (STACK_START + c.registers.s)
      ((c.registers.pc >>> 8) % 256) (by show 0x100 + _ < 0x2000; omega)
    have hm1 : (STACK_START + c.registers.s) % 2048 = 0x100 + c.registers.s := by
      show (0x100 + c.registers.s) % 2048 = _
      omega
    have hm2 : (STACK_START + (c.registers.s + 255) % 256) % 2048 =
        0x100 + (c.registers.s + 255) % 256 := by
      show (0x100 + _) % 2048 = _
      omega
    have hm3 : (STACK_START + ((c.registers.s + 255) % 256 + 255) % 256) % 2048 =
        0x100 + (c.registers.s + 254) % 256 := by
      show (0x100 + _) % 2048 = _
      omega
    have hsp3 : (((c.registers.s + 255) % 256 + 255) % 256 + 255) % 256 =
        (c.registers.s + 253) % 256 := by omega
    have hpch : (c.registers.pc >>> 8) % 256 = c.registers.pc >>> 8 := by
      rw [Nat.shiftRight_eq_div_pow]
      omega
    constructor
    · rw [interruptServiceSpec, Cpu.jump_to_interrupt]
      simp only [write_memory_ram _ _ _ _ (show STACK_START + c.registers.s < 0x2000
          from by show 0x100 + _ < 0x2000; omega),
        write_memory_ram _ _ _ _ (show STACK_START + (c.registers.s + 255) % 256 < 0x2000
          from by show 0x100 + _ < 0x2000; omega),
        write_memory_ram _ _ _ _
          (show STACK_START + ((c.registers.s + 255) % 256 + 255) % 256 < 0x2000
          from by show 0x100 + _ < 0x2000; omega),
        read_memory_cartridge _ _ 0xFFFE (by norm_num),
        read_memory_cartridge _ _ 0xFFFF (by norm_num),
        hm1, hm2, hm3, hsp3, hpch]
      exact ⟨_, rfl, rfl, rfl, rfl, rfl, rfl, rfl, rfl, rfl, rfl⟩
    · rw [interruptServiceSpec, Cpu.jump_to_interrupt_nmi]
      simp only [write_memory_ram _ _ _ _ (show STACK_START + c.registers.s < 0x2000
          from by show 0x100 + _ < 0x2000; omega),
        write_memory_ram _ _ _ _ (show STACK_START + (c.registers.s + 255) % 256 < 0x2000
          from by show 0x100 + _ < 0x2000; omega),
        write_memory_ram _ _ _ _
          (show STACK_START + ((c.registers.s + 255) % 256 + 255) % 256 < 0x2000
          from by show 0x100 + _ < 0x2000; omega),
        read_memory_cartridge _ _ 0xFFFA (by norm_num),
        read_memory_cartridge _ _ 0xFFFB (by norm_num),
        hm1, hm2, hm3, hsp3, hpch]
      exact ⟨_, rfl, rfl, rfl, rfl, rfl, rfl, rfl, rfl, rfl, rfl⟩
  · intro c hw hs
    rw [opPHP_execute]
    simp only [write_memory_ram _ _ _ _ (show STACK_START + c.registers.s < 0x2000
      from by show 0x100 + _ < 0x2000; omega),
      show (STACK_START + c.registers.s) % 2048 = 0x100 + c.registers.s
        from by show (0x100 + _) % 2048 = _; omega]
    exact ⟨_, rfl, rfl, rfl⟩

/-- C6 witness: interrupt entry from a fresh CPU on a zero-filled
cartridge. -/
theorem interrupt_service_spec_witness :
    interruptServiceSpec Cpu.new { ppu := Ppu.new, cartridge := Mmc1.new zeroBytes zeroBytes }
      true 0xFFFE 0xFFFF
      (Cpu.new.jump_to_interrupt { ppu := Ppu.new, cartridge := Mmc1.new zeroBytes zeroBytes }
        true) :=
  ((interrupt_service_spec.1 Cpu.new
      { ppu := Ppu.new, cartridge := Mmc1.new zeroBytes zeroBytes } true
      (by decide) (by decide)).1)

theorem and_255_eq_mod (x : Nat) : x &&& 255 = x % 256 := by
  have h := Nat.and_pow_two_sub_one_eq_mod x 8
  norm_num at h
  exact h

theorem decide_and128_ne (x : Nat) : decide (x &&& 128 ≠ 0) = x.testBit 7 := by
  rw [show (128 : Nat) = 2 ^ 7 from rfl, Nat.and_two_pow]
  cases h : x.testBit 7 <;> simp

theorem decide_and128_eq (x : Nat) : decide (x &&& 128 = 0) = ! x.testBit 7 := by
  rw [show (128 : Nat) = 2 ^ 7 from rfl, Nat.and_two_pow]
  cases h : x.testBit 7 <;> simp

theorem testBit7_mod256 (x : Nat) : (x % 256).testBit 7 = x.testBit 7 := by
  rw [show (256 : Nat) = 2 ^ 8 from rfl, Nat.testBit_mod_two_pow]
  simp

/-- `OpADC::<A>::execute` (`src/cpu/instructions.rs:222`), with the
addressing-mode read abstracted as the operand `src` (a byte already
fetched from the bus).  The u16 sum `a + src + carry` is at most 511, so no
wraparound is modelled. -/
def opADC (r : Registers) (src : Nat) : Registers :=
  let a := r.a
  let result := a + src + (if r.p.carry then 1 else 0)
  { r with
    a := result % 256
    p := { r.p with
      carry := decide (result > 0xFF)
      zero := decide (result &&& 0xFF = 0)
      overflow := decide ((a ^^^ src) &&& 0x80 = 0) && decide ((a ^^^ result) &&& 0x80 ≠ 0)
      negative := decide (result &&& 0x80 ≠ 0) } }

/-- `OpSBC::<A>::execute` (`src/cpu/instructions.rs:1052`): two u16
`wrapping_sub`s (modelled as `(x + 65536 - y) % 65536` for `y ≤ 65536`),
then flags from the 16-bit result. -/
def opSBC (r : Registers) (src : Nat) : Registers :=
  let a := r.a
  let carry := 1 - (if r.p.carry then 1 else 0)
  let result := ((a + 65536 - src % 65536) % 65536 + 65536 - carry) % 65536
  { r with
    a := result % 256
    p := { r.p with
      carry := decide (result ≤ 0xFF)
      zero := decide (result &&& 0xFF = 0)
      overflow := decide ((a ^^^ src) &&& 0x80 ≠ 0) && decide ((result ^^^ a) &&& 0x80 ≠ 0)
      negative := decide (result &&& 0x80 ≠ 0) } }

/-- C5: ADC/SBC arithmetic.  With carry-in `cin`, ADC computes
`A + operand + cin` in 9-bit space with the carry flag equal to the 9th
bit; SBC computes the same result as adding the one's complement of the
operand plus carry, with carry set iff no borrow occurred; overflow is set
per the sign rules of the claim; N and Z come from the 8-bit result; the
remaining registers pass through; and the D flag has no effect on
either operation. -/
theorem adc_sbc_arithmetic (r : Registers) (src : Nat)
    (ha : r.a < 256) (hs : src < 256) :
    (let cin := if r.p.carry then 1 else 0
     let sum := r.a + src + cin
     (opADC r src).a = sum % 256 ∧
     (opADC r src).p.carry = sum.testBit 8 ∧
     (opADC r src).p.zero = decide (sum % 256 = 0) ∧
     (opADC r src).p.negative = (sum % 256).testBit 7 ∧
     (opADC r src).p.overflow =
       (decide (r.a.testBit 7 = src.testBit 7) &&
        decide (¬ ((sum % 256).testBit 7 = r.a.testBit 7)))) ∧
    (let cin := if r.p.carry then 1 else 0
     let diff := r.a + (255 - src) + cin
     (opSBC r src).a = diff % 256 ∧
     (opSBC r src).p.carry = decide (src + (1 - cin) ≤ r.a) ∧
     (opSBC r src).p.zero = decide (diff % 256 = 0) ∧
     (opSBC r src).p.negative = (diff % 256).testBit 7 ∧
     (opSBC r src).p.overflow =
       (decide (¬ (r.a.testBit 7 = src.testBit 7)) &&
        decide (¬ ((diff % 256).testBit 7 = r.a.testBit 7)))) ∧
    ((opADC r src).x = r.x ∧ (opADC r src).y = r.y ∧ (opADC r src).s = r.s ∧
     (opADC r src).pc = r.pc ∧ (opADC r src).p.decimal = r.p.decimal ∧
     (opADC r src).p.interrupt = r.p.interrupt ∧
     (opSBC r src).x = r.x ∧ (opSBC r src).y = r.y ∧ (opSBC r src).s = r.s ∧
     (opSBC r src).pc = r.pc ∧ (opSBC r src).p.decimal = r.p.decimal ∧
     (opSBC r src).p.interrupt = r.p.interrupt) ∧
    (∀ d : Bool,
      opADC { r with p := { r.p with decimal := d } } src =
        { opADC r src with p := { (opADC r src).p with decimal := d } } ∧
      opSBC { r with p := { r.p with decimal := d } } src =
        { opSBC r src with p := { (opSBC r src).p with decimal := d } }) := by
  have hcin : (if r.p.carry then 1 else 0) ≤ 1 := by split <;> norm_num
  refine ⟨?_, ?_, ⟨rfl, rfl, rfl, rfl, rfl, rfl, rfl, rfl, rfl, rfl, rfl, rfl⟩,
    fun d => ⟨rfl, rfl⟩⟩
  · refine ⟨rfl, ?_, ?_, ?_, ?_⟩
    · show decide (r.a + src + _ > 0xFF) = _
      rw [Nat.testBit_to_div_mod, decide_eq_decide]
      show _ ↔ (r.a + src + _) / 2 ^ 8 % 2 = 1
      norm_num
      omega
    · show decide ((r.a + src + _) &&& 0xFF = 0) = _
      rw [and_255_eq_mod]
    · show decide ((r.a + src + _) &&& 0x80 ≠ 0) = _
      rw [decide_and128_ne, testBit7_mod256]
    · show (decide ((r.a ^^^ src) &&& 0x80 = 0) &&
        decide ((r.a ^^^ (r.a + src + _)) &&& 0x80 ≠ 0)) = _
      rw [decide_and128_eq, decide_and128_ne, testBit7_mod256,
        Nat.testBit_xor, Nat.testBit_xor]
      cases hA : r.a.testBit 7 <;> cases hS : src.testBit 7 <;>
        cases hR : (r.a + src + if r.p.carry then 1 else 0).testBit 7 <;> simp
  · refine ⟨?_, ?_, ?_, ?_, ?_⟩
    · show ((r.a + 65536 - src % 65536) % 65536 + 65536 - _) % 65536 % 256 = _
      omega
    · show decide (((r.a + 65536 - src % 65536) % 65536 + 65536 - _) % 65536 ≤ 0xFF) = _
      rw [decide_eq_decide]
      omega
    · show decide (((r.a + 65536 - src % 65536) % 65536 + 65536 - _) % 65536 &&& 0xFF
        = 0) = _
      rw [and_255_eq_mod, decide_eq_decide]
      omega
    · show decide (((r.a + 65536 - src % 65536) % 65536 + 65536 - _) % 65536 &&& 0x80
        ≠ 0) = _
      rw [decide_and128_ne, Nat.testBit_to_div_mod, Nat.testBit_to_div_mod,
        decide_eq_decide]
      norm_num
      omega
    · show (decide ((r.a ^^^ src) &&& 0x80 ≠ 0) &&
        decide ((((r.a + 65536 - src % 65536) % 65536 + 65536 - _) % 65536 ^^^ r.a) &&&
          0x80 ≠ 0)) = _
      rw [decide_and128_ne, decide_and128_ne, Nat.testBit_xor, Nat.testBit_xor]
      have hres : (((r.a + 65536 - src % 65536) % 65536 + 65536 -
          (1 - if r.p.carry then 1 else 0)) % 65536).testBit 7 =
          ((r.a + (255 - src) + (if r.p.carry then 1 else 0)) % 256).testBit 7 := by
        rw [Nat.testBit_to_div_mod, Nat.testBit_to_div_mod, decide_eq_decide]
        norm_num
        omega
      rw [hres]
      cases hA : r.a.testBit 7 <;> cases hS : src.testBit 7 <;>
        cases hR : ((r.a + (255 - src) + if r.p.carry then 1 else 0) % 256).testBit 7 <;>
        simp

/-- C5 witness: ADC at A=200, operand 100, carry clear, wraps to 44 with
carry out. -/
theorem adc_sbc_arithmetic_witness :
    (200 : Nat) < 256 ∧ (100 : Nat) < 256 ∧
    (opADC { Registers.new with a := 200 } 100).a =
      (({ Registers.new with a := 200 } : Registers).a + 100 +
        if ({ Registers.new with a := 200 } : Registers).p.carry then 1 else 0) % 256 ∧
    (opADC { Registers.new with a := 200 } 100).p.carry =
      (({ Registers.new with a := 200 } : Registers).a + 100 +
        if ({ Registers.new with a := 200 } : Registers).p.carry then 1 else 0).testBit 8 :=
  ⟨by decide, by decide,
   (adc_sbc_arithmetic { Registers.new with a := 200 } 100 (by decide) (by decide)).1.1,
   (adc_sbc_arithmetic { Registers.new with a := 200 } 100 (by decide) (by decide)).1.2.1⟩
